import Mathlib

/-!
Shallow embedding of `src/utils/notificationDecisionEngine.ts` (the
notification decision engine) and proofs of the specified properties.

Modelling conventions:
* Instants are integer milliseconds since the epoch (`Int`).  The engine
  works with local wall-clock `Date` field accessors; we model a fixed
  time zone with no DST, under which `getHours`, `getMinutes`,
  `setHours(…)` and day boundaries reduce to floor division of the
  timestamp (Lean `Int` division and modulo are floor-based for positive
  divisors, matching the ECMAScript `HourFromTime` etc. definitions).
* "HH:MM" strings (work hours, quiet hours) are modelled as already-split
  hour/minute pairs, mirroring `split(':').map(Number)` on well-formed
  inputs.
* `new Date()` — read once at the top of `calculateNotificationSchedule`
  — becomes an explicit `now` parameter.
* The JS number `frequencyMultiplier` is modelled as a rational; the one
  division `4h / frequencyMultiplier` is followed by the `Date`
  constructor's integer clipping, modelled as `Rat.floor` (equal to
  truncation for the nonnegative values involved).
* `generateNotificationContent` only fills the string payload of a
  notification; no property below inspects it, so the embedded
  notification record keeps `time`, `reason`, `type` and `priority` and
  omits the `content` field.  `formatTimeRemaining` is embedded directly
  since the spec constrains it.
-/

namespace NotificationEngine

def msPerMinute : Int := 60000
def msPerHour : Int := 3600000
def msPerDay : Int := 86400000

/-- An "HH:MM" time-of-day string, already split into its two numeric
fields (the source always consumes such strings via
`split(':').map(Number)`). -/
structure HM where
  hour : Nat
  minute : Nat
deriving DecidableEq

/-- The task record consumed by the engine (`interface Task`).
`due_date` is an optional instant; `estimated_duration` an optional
number of minutes. -/
structure Task where
  id : String
  title : String
  due_date : Option Int
  status : String
  priority : String
  estimated_duration : Option Int
  category : Option String
deriving DecidableEq

/-- `interface UserProfile`. -/
structure UserProfile where
  work_hours_start : HM
  work_hours_end : HM
  peak_energy_time : Option String
deriving DecidableEq

/-- `interface UserNotificationPreferences`. -/
structure UserNotificationPreferences where
  frequencyMultiplier : ℚ
  minimumLeadTime : Nat
  disabledPriorities : List String
  quietHoursStart : HM
  quietHoursEnd : HM
deriving DecidableEq

/-- The `type` union of `ScheduledNotificationTime`. -/
inductive NotifType where
  | advanceNotice
  | reminder
  | finalReminder
  | overdue
  | dailySummary
deriving DecidableEq

/-- `interface ScheduledNotificationTime` (without the `content` string
payload, which no proved property inspects). -/
structure ScheduledNotificationTime where
  time : Int
  reason : String
  type : NotifType
  priority : String
deriving DecidableEq

/-- `interface NotificationSchedule`. -/
structure NotificationSchedule where
  taskId : String
  taskTitle : String
  notifications : List ScheduledNotificationTime
deriving DecidableEq

/-- `date.getHours()` under the fixed-offset model. -/
def getHours (t : Int) : Int := t / msPerHour % 24

/-- `date.getMinutes()`. -/
def getMinutes (t : Int) : Int := t / msPerMinute % 60

/-- `date.setHours(0, 0, 0, 0)`: midnight of the timestamp's day. -/
def dayStart (t : Int) : Int := t / msPerDay * msPerDay

/-- `date.setHours(h, m, 0, 0)`: same day, given hour and minute. -/
def setHM (t : Int) (h m : Nat) : Int :=
  dayStart t + (h : Int) * msPerHour + (m : Int) * msPerMinute

/-- The `hour * 60 + minute` minute-of-day value the source computes from
a `Date`. -/
def timeValue (t : Int) : Int := getHours t * 60 + getMinutes t

/-- The `hour * 60 + minute` minute-of-day value the source computes from
a parsed "HH:MM" string. -/
def hmValue (x : HM) : Int := (x.hour : Int) * 60 + (x.minute : Int)

/-- `hasSpecificTime`: true unless the due time is exactly midnight. -/
def hasSpecificTime (dueDate : Int) : Bool :=
  !(getHours dueDate == 0 && getMinutes dueDate == 0)

/-- `getPeakEnergyHours`: start/end hours for the peak-energy preference
(the `switch` default covers a missing preference and any other string). -/
def getPeakEnergyHours (preference : Option String) : Nat × Nat :=
  match preference with
  | some "morning" => (8, 12)
  | some "afternoon" => (12, 17)
  | some "evening" => (17, 21)
  | _ => (9, 12)

/-- `getLeadTimeForDuration`.  The source guard `if (!durationMinutes)`
is JS falsiness: it catches `undefined`, `null` and `0`. -/
def getLeadTimeForDuration (durationMinutes : Option Int) : Int :=
  match durationMinutes with
  | none => 15
  | some d =>
    if d = 0 then 15
    else if d ≥ 120 then 30
    else if d ≥ 60 then 20
    else if d ≤ 30 then 10
    else 15

/-- `isInQuietHours`: minute-of-day comparison, wrapping past midnight
when the window start is after its end. -/
def isInQuietHours (t : Int) (prefs : UserNotificationPreferences) : Bool :=
  let quietStart := hmValue prefs.quietHoursStart
  let quietEnd := hmValue prefs.quietHoursEnd
  if quietStart > quietEnd then
    decide (timeValue t ≥ quietStart ∨ timeValue t ≤ quietEnd)
  else
    decide (timeValue t ≥ quietStart ∧ timeValue t ≤ quietEnd)

/-- `adjustToWorkHours`: for work tasks, moves a time whose hour is
before the work start hour to the work start, and one whose hour is after
the work end hour to the work end; hours are compared, minutes are not. -/
def adjustToWorkHours (t : Int) (profile : UserProfile) (isWorkTask : Bool) : Int :=
  if !isWorkTask then t
  else
    let hour := getHours t
    if hour < (profile.work_hours_start.hour : Int) then
      setHM t profile.work_hours_start.hour profile.work_hours_start.minute
    else if hour > (profile.work_hours_end.hour : Int) then
      setHM t profile.work_hours_end.hour profile.work_hours_end.minute
    else t

/-- The `${n > 1 ? 's' : ''}` pluralization inlined in
`formatTimeRemaining`. -/
def plural (n : Int) : String := if n > 1 then "s" else ""

/-- `formatTimeRemaining`.  `Math.floor` of a real quotient is `Int`
floor division; `Math.abs` is `|·|`. -/
def formatTimeRemaining (targetDate fromDate : Int) : String :=
  let diffMs := targetDate - fromDate
  let diffMins := diffMs / 60000
  let diffHours := diffMins / 60
  let diffDays := diffHours / 24
  if diffMins < 0 then
    let overdueMins := |diffMins|
    let overdueHours := overdueMins / 60
    let overdueDays := overdueHours / 24
    if overdueDays > 0 then
      "Due " ++ toString overdueDays ++ " day" ++ plural overdueDays ++ " ago"
    else if overdueHours > 0 then
      "Due " ++ toString overdueHours ++ " hour" ++ plural overdueHours ++ " ago"
    else
      "Due " ++ toString overdueMins ++ " minute" ++ plural overdueMins ++ " ago"
  else if diffDays > 0 then
    "Due in " ++ toString diffDays ++ " day" ++ plural diffDays
  else if diffHours > 0 then
    "Due in " ++ toString diffHours ++ " hour" ++ plural diffHours
  else if diffMins > 0 then
    "Due in " ++ toString diffMins ++ " minute" ++ plural diffMins
  else
    "Due now"

/-- The `addNotification` closure of `calculateNotificationSchedule`: the
shared admission gate.  Returns the admitted notification, or `none` when
the work-hours-adjusted time falls in quiet hours or is not strictly
after `now + minimumLeadTime` minutes. -/
def addNotification (now : Int) (profile : UserProfile)
    (preferences : UserNotificationPreferences) (isWorkTask : Bool)
    (time : Int) (reason : String) (ty : NotifType) (priorityLevel : String) :
    Option ScheduledNotificationTime :=
  let adjustedTime := adjustToWorkHours time profile isWorkTask
  if isInQuietHours adjustedTime preferences then none
  else
    let minLeadTime := now + (preferences.minimumLeadTime : Int) * 60 * 1000
    if adjustedTime ≤ minLeadTime then none
    else some ⟨adjustedTime, reason, ty, priorityLevel⟩

/-- A candidate notification before it is passed through
`addNotification`. -/
structure Cand where
  time : Int
  reason : String
  type : NotifType
  priority : String
deriving DecidableEq

/-- High-priority candidates for a due date with a specific time-of-day:
24h before (unless reduced), 2h before, the duration-derived final
reminder, and a 6h early warning in aggressive mode — each only when
strictly after `now`. -/
def highSpecificCands (now dueDate leadTime : Int)
    (shouldReduce shouldAddExtra : Bool) : List Cand :=
  (if shouldReduce = false ∧ now < dueDate - 24 * msPerHour then
    [⟨dueDate - 24 * msPerHour, "24hr advance notice for high priority",
      NotifType.advanceNotice, "high"⟩] else [])
  ++ (if now < dueDate - 2 * msPerHour then
    [⟨dueDate - 2 * msPerHour, "2hr reminder before scheduled time",
      NotifType.reminder, "high"⟩] else [])
  ++ (if now < dueDate - leadTime * msPerMinute then
    [⟨dueDate - leadTime * msPerMinute, toString leadTime ++ "min final reminder",
      NotifType.finalReminder, "high"⟩] else [])
  ++ (if shouldAddExtra = true ∧ now < dueDate - 6 * msPerHour then
    [⟨dueDate - 6 * msPerHour, "6hr early warning for high priority",
      NotifType.reminder, "high"⟩] else [])

/-- High-priority candidates for a date-only due date: 9:00, 14:00 and
18:00 on the due day (only 9:00 when reduced), plus a 9:00
24h-in-advance notice when not reduced and not due today. -/
def highDateOnlyCands (now dueDate : Int) (isDueToday shouldReduce : Bool) :
    List Cand :=
  (if now < setHM dueDate 9 0 then
    [⟨setHM dueDate 9 0, "High priority due date - morning reminder",
      NotifType.reminder, "high"⟩] else [])
  ++ (if shouldReduce = false ∧ now < setHM dueDate 14 0 then
    [⟨setHM dueDate 14 0, "High priority due date - afternoon reminder",
      NotifType.reminder, "high"⟩] else [])
  ++ (if shouldReduce = false ∧ now < setHM dueDate 18 0 then
    [⟨setHM dueDate 18 0, "High priority due date - evening reminder",
      NotifType.reminder, "high"⟩] else [])
  ++ (if shouldReduce = false ∧ now < setHM (dueDate - 24 * msPerHour) 9 0 ∧ isDueToday = false then
    [⟨setHM (dueDate - 24 * msPerHour) 9 0, "24hr advance notice for high priority",
      NotifType.advanceNotice, "high"⟩] else [])

/-- Medium-priority candidates for a due date with a specific time: 2h
before, plus a 15-minute final reminder in aggressive mode. -/
def medSpecificCands (now dueDate : Int) (shouldAddExtra : Bool) : List Cand :=
  (if now < dueDate - 2 * msPerHour then
    [⟨dueDate - 2 * msPerHour, "2hr reminder for medium priority task",
      NotifType.reminder, "medium"⟩] else [])
  ++ (if shouldAddExtra = true ∧ now < dueDate - 15 * msPerMinute then
    [⟨dueDate - 15 * msPerMinute, "15min final reminder for medium priority",
      NotifType.finalReminder, "medium"⟩] else [])

/-- Medium-priority candidate for a date-only due date: 9:00 on the due
day. -/
def medDateOnlyCands (now dueDate : Int) : List Cand :=
  if now < setHM dueDate 9 0 then
    [⟨setHM dueDate 9 0, "Medium priority due date - morning reminder",
      NotifType.reminder, "medium"⟩] else []

/-- The comparison of the final `notifications.sort((a, b) => a.time - b.time)`. -/
def timeLE (a b : ScheduledNotificationTime) : Prop := a.time ≤ b.time

instance : DecidableRel timeLE :=
  fun a b => inferInstanceAs (Decidable (a.time ≤ b.time))

instance : IsTotal ScheduledNotificationTime timeLE :=
  ⟨fun a b => le_total a.time b.time⟩

instance : IsTrans ScheduledNotificationTime timeLE :=
  ⟨fun _ _ _ h h' => le_trans h h'⟩

/-- The final ascending-by-time sort of the notification list. -/
def sortByTime (l : List ScheduledNotificationTime) : List ScheduledNotificationTime :=
  List.insertionSort timeLE l

/-- The no-due-date branch: only a high-priority work task yields a
notification — a next-day daily summary at the peak-energy start hour,
adjusted to work hours, guarded by strictly-after-now and quiet hours
(the source's push sits inside `if (isWorkTask)`). -/
def noDueDateNotifs (task : Task) (profile : UserProfile)
    (preferences : UserNotificationPreferences) (now : Int) :
    List ScheduledNotificationTime :=
  if task.priority = "high" ∧ task.category = some "work" then
    let peakHours := getPeakEnergyHours profile.peak_energy_time
    let reminderTime := setHM (now + msPerDay) peakHours.1 0
    let adjustedTime := adjustToWorkHours reminderTime profile true
    if now < adjustedTime ∧ isInQuietHours adjustedTime preferences = false then
      [⟨adjustedTime, "High priority task without deadline - peak energy reminder",
        NotifType.dailySummary, "high"⟩]
    else []
  else []

/-- The overdue branch: high priority gets one more reminder at
`now + 4h / frequencyMultiplier` while fewer than 3 exist; medium gets a
9:00 reminder, rolled to tomorrow when 9:00 has passed — both through the
`addNotification` gate. -/
def overdueNotifs (task : Task) (profile : UserProfile)
    (existingOverdueReminders : Nat)
    (preferences : UserNotificationPreferences) (now : Int) (isWorkTask : Bool) :
    List ScheduledNotificationTime :=
  if task.priority = "high" then
    if existingOverdueReminders < 3 then
      let adjustedInterval : ℚ := (4 * 60 * 60 * 1000 : ℚ) / preferences.frequencyMultiplier
      let nextReminder : Int := ((now : ℚ) + adjustedInterval).floor
      (addNotification now profile preferences isWorkTask nextReminder
        ("Overdue high priority - reminder " ++ toString (existingOverdueReminders + 1) ++ " of 3")
        NotifType.overdue "high").toList
    else []
  else if task.priority = "medium" then
    let rt : Int := setHM now 9 0
    let reminderTime := if rt ≤ now then rt + msPerDay else rt
    (addNotification now profile preferences isWorkTask reminderTime
      "Overdue medium priority - daily reminder" NotifType.overdue "medium").toList
  else []

/-- The future / due-today branch: the priority-specific candidates each
pass through `addNotification`, and the result is sorted by time. -/
def futureNotifs (task : Task) (profile : UserProfile)
    (preferences : UserNotificationPreferences) (now dueDate : Int)
    (isWorkTask isDueToday specificTime : Bool) :
    List ScheduledNotificationTime :=
  let shouldAddExtra : Bool := decide ((3 : ℚ) / 2 ≤ preferences.frequencyMultiplier)
  let shouldReduce : Bool := decide (preferences.frequencyMultiplier ≤ (1 : ℚ) / 2)
  let gate := fun (c : Cand) =>
    addNotification now profile preferences isWorkTask c.time c.reason c.type c.priority
  let highList :=
    if task.priority = "high" then
      List.filterMap gate
        (if specificTime then
          highSpecificCands now dueDate (getLeadTimeForDuration task.estimated_duration)
            shouldReduce shouldAddExtra
        else highDateOnlyCands now dueDate isDueToday shouldReduce)
    else []
  let medList :=
    if task.priority = "medium" then
      List.filterMap gate
        (if specificTime then medSpecificCands now dueDate shouldAddExtra
        else medDateOnlyCands now dueDate)
    else []
  sortByTime (highList ++ medList)

/-- `calculateNotificationSchedule`: the main decision engine, with the
wall clock read `new Date()` passed explicitly as `now`. -/
def calculateNotificationSchedule (task : Task) (profile : UserProfile)
    (existingOverdueReminders : Nat)
    (preferences : UserNotificationPreferences) (now : Int) :
    NotificationSchedule :=
  let isWorkTask : Bool := decide (task.category = some "work")
  if task.status = "completed" then ⟨task.id, task.title, []⟩
  else if task.priority ∈ preferences.disabledPriorities then ⟨task.id, task.title, []⟩
  else if task.priority = "low" then ⟨task.id, task.title, []⟩
  else
    match task.due_date with
    | none => ⟨task.id, task.title, noDueDateNotifs task profile preferences now⟩
    | some dueDate =>
      if dayStart dueDate < dayStart now then
        ⟨task.id, task.title,
          overdueNotifs task profile existingOverdueReminders preferences now isWorkTask⟩
      else
        ⟨task.id, task.title,
          futureNotifs task profile preferences now dueDate isWorkTask
            (decide (dayStart dueDate = dayStart now)) (hasSpecificTime dueDate)⟩

/-! Concrete inputs used by counterexamples and witnesses. -/

/-- A high-priority work task with no due date for the C1 counterexample. -/
def c1Task : Task := ⟨"t1", "Task one", none, "pending", "high", none, some "work"⟩

/-- A profile with 09:00 to 17:00 work hours and a morning peak. -/
def c1Profile : UserProfile := ⟨⟨9, 0⟩, ⟨17, 0⟩, some "morning"⟩

/-- Preferences with a 2000-minute minimum lead time. -/
def c1Prefs : UserNotificationPreferences := ⟨1, 2000, [], ⟨22, 0⟩, ⟨7, 0⟩⟩

/-- Noon of day 0. -/
def c1Now : Int := 43200000

/-- A completed task. -/
def c5Task : Task := ⟨"t5", "Task five", some 0, "completed", "high", none, none⟩

/-- Default-like preferences: multiplier 1, 5-minute lead, quiet hours
22:00 to 07:00. -/
def c5Prefs : UserNotificationPreferences := ⟨1, 5, [], ⟨22, 0⟩, ⟨7, 0⟩⟩

/-- A high-priority non-work task with no due date. -/
def c2Task : Task := ⟨"t2", "Task two", none, "pending", "high", none, none⟩

/-- A high-priority task due at the epoch (overdue from day 1 onward). -/
def c3Task : Task := ⟨"t3", "Task three", some 0, "pending", "high", none, none⟩

/-- Preferences whose quiet hours cover the whole day. -/
def c3Prefs : UserNotificationPreferences := ⟨1, 5, [], ⟨0, 0⟩, ⟨23, 59⟩⟩

/-- Noon of day 1. -/
def c3Now : Int := 129600000

/-- A profile whose work day starts at 09:30. -/
def c7Profile : UserProfile := ⟨⟨9, 30⟩, ⟨17, 0⟩, none⟩

/-! Helper lemmas and the claim theorems. -/

/-- Minute-of-day values are within a day. -/
theorem timeValue_bounds (t : Int) : 0 ≤ timeValue t ∧ timeValue t < 1440 := by
  simp only [timeValue, getHours, getMinutes, msPerHour, msPerMinute]
  omega

/-- `setHM` with an in-range hour and minute lands on the requested hour. -/
theorem getHours_setHM (t : Int) (h m : Nat) (hh : h < 24) (hm : m < 60) :
    getHours (setHM t h m) = (h : Int) := by
  simp only [getHours, setHM, dayStart, msPerHour, msPerMinute, msPerDay]
  omega

/-- Any result of `adjustToWorkHours` is at or after the midnight of its
argument's day. -/
theorem dayStart_le_adjustToWorkHours (t : Int) (profile : UserProfile) (w : Bool) :
    dayStart t ≤ adjustToWorkHours t profile w := by
  unfold adjustToWorkHours
  dsimp only
  split
  · simp only [dayStart, msPerDay]; omega
  · split
    · simp only [setHM, dayStart, msPerDay, msPerHour, msPerMinute]
      have h1 : (0:Int) ≤ (profile.work_hours_start.hour : Int) := by positivity
      have h2 : (0:Int) ≤ (profile.work_hours_start.minute : Int) := by positivity
      omega
    · split
      · simp only [setHM, dayStart, msPerDay, msPerHour, msPerMinute]
        have h1 : (0:Int) ≤ (profile.work_hours_end.hour : Int) := by positivity
        have h2 : (0:Int) ≤ (profile.work_hours_end.minute : Int) := by positivity
        omega
      · simp only [dayStart, msPerDay]; omega

/-- The next-day reminder of the no-due-date branch is strictly after
`now`, even after the work-hours adjustment. -/
theorem now_lt_adjust_next_day (now : Int) (profile : UserProfile) (h : Nat) :
    now < adjustToWorkHours (setHM (now + msPerDay) h 0) profile true := by
  have hd := dayStart_le_adjustToWorkHours (setHM (now + msPerDay) h 0) profile true
  simp only [setHM, dayStart, msPerDay, msPerHour, msPerMinute] at hd ⊢
  have h1 : (0:Int) ≤ (h : Int) := by positivity
  omega

/-- Characterization of a successful `addNotification`. -/
theorem addNotification_eq_some {now : Int} {profile : UserProfile}
    {prefs : UserNotificationPreferences} {w : Bool} {time : Int} {reason : String}
    {ty : NotifType} {pr : String} {n : ScheduledNotificationTime}
    (h : addNotification now profile prefs w time reason ty pr = some n) :
    n.time = adjustToWorkHours time profile w ∧
    isInQuietHours n.time prefs = false ∧
    now + (prefs.minimumLeadTime : Int) * 60 * 1000 < n.time ∧
    n.reason = reason ∧ n.type = ty ∧ n.priority = pr := by
  unfold addNotification at h
  dsimp only at h
  split at h
  · exact absurd h (by simp)
  · next hq =>
    split at h
    · exact absurd h (by simp)
    · next hle =>
      obtain rfl := Option.some_injective _ h.symm
      refine ⟨rfl, ?_, ?_, rfl, rfl, rfl⟩
      · simpa using hq
      · dsimp only at hle ⊢
        omega

/-- `sortByTime` returns a list non-decreasing by `time`. -/
theorem sortByTime_sorted (l : List ScheduledNotificationTime) :
    (sortByTime l).Pairwise (fun a b => a.time ≤ b.time) :=
  List.sorted_insertionSort timeLE l

/-- `sortByTime` permutes its input. -/
theorem mem_sortByTime {n : ScheduledNotificationTime}
    {l : List ScheduledNotificationTime} : n ∈ sortByTime l ↔ n ∈ l :=
  (List.perm_insertionSort timeLE l).mem_iff

theorem length_sortByTime (l : List ScheduledNotificationTime) :
    (sortByTime l).length = l.length :=
  (List.perm_insertionSort timeLE l).length_eq

/-- A list of at most one element is vacuously pairwise-related. -/
theorem pairwise_of_len_le_one {α : Type} {R : α → α → Prop} {l : List α}
    (h : l.length ≤ 1) : l.Pairwise R := by
  match l with
  | [] => exact List.Pairwise.nil
  | [a] => simp
  | a :: b :: t => simp at h

theorem length_highSpecificCands_le (now dueDate leadTime : Int) (sr se : Bool) :
    (highSpecificCands now dueDate leadTime sr se).length ≤ 4 := by
  unfold highSpecificCands
  split <;> split <;> split <;> split <;> simp

theorem length_highDateOnlyCands_le (now dueDate : Int) (dt sr : Bool) :
    (highDateOnlyCands now dueDate dt sr).length ≤ 4 := by
  unfold highDateOnlyCands
  split <;> split <;> split <;> split <;> simp

theorem length_medSpecificCands_le (now dueDate : Int) (se : Bool) :
    (medSpecificCands now dueDate se).length ≤ 2 := by
  unfold medSpecificCands
  split <;> split <;> simp

theorem length_medDateOnlyCands_le (now dueDate : Int) :
    (medDateOnlyCands now dueDate).length ≤ 1 := by
  unfold medDateOnlyCands
  split <;> simp

/-- Everything in the no-due-date branch passes the strictly-after-now
and quiet-hours checks and is the daily summary. -/
theorem mem_noDueDateNotifs {task : Task} {profile : UserProfile}
    {prefs : UserNotificationPreferences} {now : Int}
    {n : ScheduledNotificationTime}
    (h : n ∈ noDueDateNotifs task profile prefs now) :
    isInQuietHours n.time prefs = false ∧ now < n.time ∧
    n.type = NotifType.dailySummary := by
  unfold noDueDateNotifs at h
  dsimp only at h
  split at h
  · split at h
    · next hc =>
      rw [List.mem_singleton] at h
      subst h
      exact ⟨hc.2, hc.1, rfl⟩
    · simp at h
  · simp at h

theorem length_noDueDateNotifs_le (task : Task) (profile : UserProfile)
    (prefs : UserNotificationPreferences) (now : Int) :
    (noDueDateNotifs task profile prefs now).length ≤ 1 := by
  unfold noDueDateNotifs
  dsimp only
  split
  · split <;> simp
  · simp

/-- Everything in the overdue branch passed the `addNotification` gate
and is an overdue notification. -/
theorem mem_overdueNotifs {task : Task} {profile : UserProfile} {cnt : Nat}
    {prefs : UserNotificationPreferences} {now : Int} {w : Bool}
    {n : ScheduledNotificationTime}
    (h : n ∈ overdueNotifs task profile cnt prefs now w) :
    isInQuietHours n.time prefs = false ∧
    now + (prefs.minimumLeadTime : Int) * 60 * 1000 < n.time ∧
    n.type = NotifType.overdue := by
  unfold overdueNotifs at h
  dsimp only at h
  split at h
  · split at h
    · rw [Option.mem_toList, Option.mem_def] at h
      obtain ⟨_, h2, h3, _, h5, _⟩ := addNotification_eq_some h
      exact ⟨h2, h3, h5⟩
    · simp at h
  · split at h
    · rw [Option.mem_toList, Option.mem_def] at h
      obtain ⟨_, h2, h3, _, h5, _⟩ := addNotification_eq_some h
      exact ⟨h2, h3, h5⟩
    · simp at h

theorem length_overdueNotifs_le (task : Task) (profile : UserProfile) (cnt : Nat)
    (prefs : UserNotificationPreferences) (now : Int) (w : Bool) :
    (overdueNotifs task profile cnt prefs now w).length ≤ 1 := by
  unfold overdueNotifs
  dsimp only
  split
  · split
    · cases addNotification now profile prefs w _ _ NotifType.overdue "high" <;> simp
    · simp
  · split
    · cases addNotification now profile prefs w _ _ NotifType.overdue "medium" <;> simp
    · simp

/-- Everything in the future / due-today branch passed the
`addNotification` gate. -/
theorem mem_futureNotifs {task : Task} {profile : UserProfile}
    {prefs : UserNotificationPreferences} {now dueDate : Int}
    {w dt st : Bool} {n : ScheduledNotificationTime}
    (h : n ∈ futureNotifs task profile prefs now dueDate w dt st) :
    isInQuietHours n.time prefs = false ∧
    now + (prefs.minimumLeadTime : Int) * 60 * 1000 < n.time := by
  unfold futureNotifs at h
  dsimp only at h
  rw [mem_sortByTime, List.mem_append] at h
  rcases h with h | h <;>
    [skip; skip] <;>
    · split at h
      · rw [List.mem_filterMap] at h
        obtain ⟨c, _, hc⟩ := h
        obtain ⟨_, h2, h3, _⟩ := addNotification_eq_some hc
        exact ⟨h2, h3⟩
      · simp at h

theorem length_futureNotifs_le (task : Task) (profile : UserProfile)
    (prefs : UserNotificationPreferences) (now dueDate : Int) (w dt st : Bool) :
    (futureNotifs task profile prefs now dueDate w dt st).length ≤ 4 := by
  unfold futureNotifs
  dsimp only
  rw [length_sortByTime, List.length_append]
  by_cases hp : task.priority = "high"
  · have hm : ¬ task.priority = "medium" := by rw [hp]; decide
    simp only [hp, if_true, hm, if_false, List.length_nil, Nat.add_zero]
    split
    · exact le_trans (List.length_filterMap_le _ _) (length_highSpecificCands_le _ _ _ _ _)
    · exact le_trans (List.length_filterMap_le _ _) (length_highDateOnlyCands_le _ _ _ _)
  · simp only [hp, if_false, List.length_nil, Nat.zero_add]
    split
    · refine le_trans ?_ (by norm_num : (2:Nat) ≤ 4)
      split
      · exact le_trans (List.length_filterMap_le _ _) (length_medSpecificCands_le _ _ _)
      · exact le_trans (List.length_filterMap_le _ _)
          (le_trans (length_medDateOnlyCands_le _ _) (by norm_num))
    · simp

/-- Branch dispatch: gate properties of every returned notification. -/
theorem mem_calculate_gate {task : Task} {profile : UserProfile} {cnt : Nat}
    {prefs : UserNotificationPreferences} {now : Int}
    {n : ScheduledNotificationTime}
    (h : n ∈ (calculateNotificationSchedule task profile cnt prefs now).notifications) :
    isInQuietHours n.time prefs = false ∧ now < n.time ∧
    (task.due_date ≠ none →
      now + (prefs.minimumLeadTime : Int) * 60 * 1000 < n.time) := by
  unfold calculateNotificationSchedule at h
  dsimp only at h
  split at h
  · simp at h
  · split at h
    · simp at h
    · split at h
      · simp at h
      · split at h
        · next heq =>
          obtain ⟨h1, h2, _⟩ := mem_noDueDateNotifs h
          exact ⟨h1, h2, fun hne => absurd heq hne⟩
        · next dueDate heq =>
          have hlead : (0:Int) ≤ (prefs.minimumLeadTime : Int) * 60 * 1000 := by positivity
          split at h
          · obtain ⟨h1, h2, _⟩ := mem_overdueNotifs h
            exact ⟨h1, by omega, fun _ => h2⟩
          · obtain ⟨h1, h2⟩ := mem_futureNotifs h
            exact ⟨h1, by omega, fun _ => h2⟩

/-- Branch dispatch: the schedule always carries the task id and title. -/
theorem calculate_ids (task : Task) (profile : UserProfile) (cnt : Nat)
    (prefs : UserNotificationPreferences) (now : Int) :
    (calculateNotificationSchedule task profile cnt prefs now).taskId = task.id ∧
    (calculateNotificationSchedule task profile cnt prefs now).taskTitle = task.title := by
  unfold calculateNotificationSchedule
  dsimp only
  repeat' split
  all_goals exact ⟨rfl, rfl⟩

/-- Branch dispatch: at most 4 notifications. -/
theorem length_calculate_le (task : Task) (profile : UserProfile) (cnt : Nat)
    (prefs : UserNotificationPreferences) (now : Int) :
    (calculateNotificationSchedule task profile cnt prefs now).notifications.length ≤ 4 := by
  unfold calculateNotificationSchedule
  dsimp only
  repeat' split
  · simp
  · simp
  · simp
  · exact le_trans (length_noDueDateNotifs_le _ _ _ _) (by norm_num)
  · exact le_trans (length_overdueNotifs_le _ _ _ _ _ _) (by norm_num)
  · exact length_futureNotifs_le _ _ _ _ _ _ _ _

/-- Branch dispatch: the returned list is non-decreasing by time. -/
theorem calculate_sorted (task : Task) (profile : UserProfile) (cnt : Nat)
    (prefs : UserNotificationPreferences) (now : Int) :
    (calculateNotificationSchedule task profile cnt prefs now).notifications.Pairwise
      (fun a b => a.time ≤ b.time) := by
  unfold calculateNotificationSchedule
  dsimp only
  repeat' split
  · simp
  · simp
  · simp
  · exact pairwise_of_len_le_one (length_noDueDateNotifs_le _ _ _ _)
  · exact pairwise_of_len_le_one (length_overdueNotifs_le _ _ _ _ _ _)
  · exact sortByTime_sorted _

/-- Claim C4: for every task, profile, overdue count and preferences —
including the overdue and no-due-date early returns — the notification
list returned by `calculateNotificationSchedule` is sorted non-decreasing
by time. -/
theorem C4_schedule_sorted (task : Task) (profile : UserProfile) (cnt : Nat)
    (prefs : UserNotificationPreferences) (now : Int) :
    (calculateNotificationSchedule task profile cnt prefs now).notifications.Pairwise
      (fun a b => a.time ≤ b.time) :=
  calculate_sorted task profile cnt prefs now

/-- Claim C10: every schedule has at most 4 notifications, and its
`taskId` and `taskTitle` are the input task's `id` and `title`. -/
theorem C10_schedule_shape (task : Task) (profile : UserProfile) (cnt : Nat)
    (prefs : UserNotificationPreferences) (now : Int) :
    (calculateNotificationSchedule task profile cnt prefs now).notifications.length ≤ 4 ∧
    (calculateNotificationSchedule task profile cnt prefs now).taskId = task.id ∧
    (calculateNotificationSchedule task profile cnt prefs now).taskTitle = task.title :=
  ⟨length_calculate_le task profile cnt prefs now, calculate_ids task profile cnt prefs now⟩

/-- Claim C1 (amended): every returned notification is strictly after
`now` and outside quiet hours; notifications produced on the due-date
paths (overdue and future branches) are moreover strictly after
`now + minimumLeadTime` minutes, but the no-due-date daily summary is
only guaranteed to be strictly after `now`. -/
theorem C1_schedule_gate (task : Task) (profile : UserProfile) (cnt : Nat)
    (prefs : UserNotificationPreferences) (now : Int)
    (n : ScheduledNotificationTime)
    (h : n ∈ (calculateNotificationSchedule task profile cnt prefs now).notifications) :
    isInQuietHours n.time prefs = false ∧ now < n.time ∧
    (task.due_date ≠ none →
      now + (prefs.minimumLeadTime : Int) * 60 * 1000 < n.time) :=
  mem_calculate_gate h

set_option maxRecDepth 2000 in
/-- Claim C1 (counterexample): the no-due-date branch checks only
`adjustedTime > now`, not the minimum lead time, so with a 2000-minute
lead the 09:00 next-day daily summary is returned even though it is not
after `now + minimumLeadTime`. -/
theorem C1_counterexample :
    (calculateNotificationSchedule c1Task c1Profile 0 c1Prefs c1Now).notifications =
      [⟨118800000, "High priority task without deadline - peak energy reminder",
        NotifType.dailySummary, "high"⟩] ∧
    (118800000 : Int) ≤ c1Now + (c1Prefs.minimumLeadTime : Int) * 60 * 1000 := by
  constructor
  · with_unfolding_all rfl
  · decide

set_option maxRecDepth 2000 in
/-- Claim C1 (witness): the gate theorem applied to the concrete returned
daily summary. -/
theorem C1_witness :
    isInQuietHours (118800000 : Int) c1Prefs = false ∧ c1Now < (118800000 : Int) ∧
    (c1Task.due_date ≠ none →
      c1Now + (c1Prefs.minimumLeadTime : Int) * 60 * 1000 < (118800000 : Int)) := by
  have hmem : (⟨118800000, "High priority task without deadline - peak energy reminder",
      NotifType.dailySummary, "high"⟩ : ScheduledNotificationTime) ∈
      (calculateNotificationSchedule c1Task c1Profile 0 c1Prefs c1Now).notifications := by
    rw [show (calculateNotificationSchedule c1Task c1Profile 0 c1Prefs c1Now).notifications =
      [⟨118800000, "High priority task without deadline - peak energy reminder",
        NotifType.dailySummary, "high"⟩] from by with_unfolding_all rfl]
    exact List.mem_singleton_self _
  exact C1_schedule_gate c1Task c1Profile 0 c1Prefs c1Now _ hmem

/-- Claim C5: completed tasks, low-priority tasks, and tasks whose
priority is disabled in the preferences always yield an empty
notification list. -/
theorem C5_short_circuits (task : Task) (profile : UserProfile) (cnt : Nat)
    (prefs : UserNotificationPreferences) (now : Int) :
    (task.status = "completed" →
      (calculateNotificationSchedule task profile cnt prefs now).notifications = []) ∧
    (task.priority = "low" →
      (calculateNotificationSchedule task profile cnt prefs now).notifications = []) ∧
    (task.priority ∈ prefs.disabledPriorities →
      (calculateNotificationSchedule task profile cnt prefs now).notifications = []) := by
  refine ⟨?_, ?_, ?_⟩ <;> intro h <;>
    · unfold calculateNotificationSchedule
      dsimp only
      repeat' split
      all_goals simp_all [noDueDateNotifs]

/-- Claim C5 (witness): a concrete completed task yields no
notifications. -/
theorem C5_witness :
    (calculateNotificationSchedule c5Task c1Profile 0 c5Prefs c1Now).notifications = [] :=
  (C5_short_circuits c5Task c1Profile 0 c5Prefs c1Now).1 (by decide)

/-- Claim C2 (amended): with no due date, only a high-priority task in
the "work" category yields a notification — the next-day daily summary at
the peak-energy start hour, work-hours-adjusted, suppressed exactly when
it falls in quiet hours; high-priority non-work tasks and medium-priority
tasks yield nothing. -/
theorem C2_no_due_date (task : Task) (profile : UserProfile) (cnt : Nat)
    (prefs : UserNotificationPreferences) (now : Int)
    (hstatus : task.status ≠ "completed")
    (hdis : task.priority ∉ prefs.disabledPriorities)
    (hdue : task.due_date = none) :
    (task.priority = "high" ∧ task.category = some "work" →
      (isInQuietHours (adjustToWorkHours
          (setHM (now + msPerDay) (getPeakEnergyHours profile.peak_energy_time).1 0)
          profile true) prefs = true →
        (calculateNotificationSchedule task profile cnt prefs now).notifications = []) ∧
      (isInQuietHours (adjustToWorkHours
          (setHM (now + msPerDay) (getPeakEnergyHours profile.peak_energy_time).1 0)
          profile true) prefs = false →
        (calculateNotificationSchedule task profile cnt prefs now).notifications =
          [⟨adjustToWorkHours
              (setHM (now + msPerDay) (getPeakEnergyHours profile.peak_energy_time).1 0)
              profile true,
            "High priority task without deadline - peak energy reminder",
            NotifType.dailySummary, "high"⟩])) ∧
    (task.priority = "high" ∧ ¬ task.category = some "work" →
      (calculateNotificationSchedule task profile cnt prefs now).notifications = []) ∧
    (task.priority = "medium" →
      (calculateNotificationSchedule task profile cnt prefs now).notifications = []) := by
  refine ⟨fun hp => ?_, fun hp => ?_, fun hp => ?_⟩
  · have hcalc : (calculateNotificationSchedule task profile cnt prefs now).notifications =
        noDueDateNotifs task profile prefs now := by
      unfold calculateNotificationSchedule
      simp [hstatus, hdue, hp.1]
      rw [if_neg (hp.1 ▸ hdis)]
    rw [hcalc]
    unfold noDueDateNotifs
    dsimp only
    rw [if_pos hp]
    constructor
    · intro hq
      rw [if_neg]
      simp [hq]
    · intro hq
      rw [if_pos ⟨now_lt_adjust_next_day now profile _, hq⟩]
  · have hcalc : (calculateNotificationSchedule task profile cnt prefs now).notifications =
        noDueDateNotifs task profile prefs now := by
      unfold calculateNotificationSchedule
      simp [hstatus, hdue, hp.1]
      rw [if_neg (hp.1 ▸ hdis)]
    rw [hcalc]
    unfold noDueDateNotifs
    dsimp only
    rw [if_neg]
    intro hc
    exact hp.2 hc.2
  · have hcalc : (calculateNotificationSchedule task profile cnt prefs now).notifications =
        noDueDateNotifs task profile prefs now := by
      unfold calculateNotificationSchedule
      simp [hstatus, hdue, hp]
      rw [if_neg (hp ▸ hdis)]
    rw [hcalc]
    unfold noDueDateNotifs
    dsimp only
    rw [if_neg]
    intro hc
    rw [hp] at hc
    exact absurd hc.1 (by decide)

set_option maxRecDepth 2000 in
/-- Claim C2 (counterexample): a high-priority task with no due date but
outside the "work" category yields an empty list even though the
claimed next-day peak-energy time is not in quiet hours — the source
only pushes the daily summary inside `if (isWorkTask)`. -/
theorem C2_counterexample :
    (calculateNotificationSchedule c2Task c1Profile 0 c5Prefs c1Now).notifications = [] ∧
    isInQuietHours
      (setHM (c1Now + msPerDay) (getPeakEnergyHours c1Profile.peak_energy_time).1 0)
      c5Prefs = false := by
  constructor
  · with_unfolding_all rfl
  · decide

set_option maxRecDepth 2000 in
/-- Claim C2 (witness): the amended theorem applied to a concrete
high-priority work task with no due date. -/
theorem C2_witness :
    (calculateNotificationSchedule c1Task c1Profile 0 c5Prefs c1Now).notifications =
      [⟨adjustToWorkHours
          (setHM (c1Now + msPerDay) (getPeakEnergyHours c1Profile.peak_energy_time).1 0)
          c1Profile true,
        "High priority task without deadline - peak energy reminder",
        NotifType.dailySummary, "high"⟩] :=
  ((C2_no_due_date c1Task c1Profile 0 c5Prefs c1Now (by decide) (by decide) rfl).1
    (by decide)).2 (by decide)

/-- Claim C3 (amended): for an overdue (due day strictly before today)
non-completed, non-disabled high-priority task, with a positive frequency
multiplier: with 3 or more existing overdue reminders the schedule is
empty; with fewer, it contains exactly one overdue notification at the
work-hours-adjusted `now + 4h / frequencyMultiplier` — unless that time
falls in quiet hours or is not after `now + minimumLeadTime`, in which
case it is dropped and the schedule is empty; the branch yields no other
notification type. -/
theorem C3_overdue (task : Task) (profile : UserProfile) (cnt : Nat)
    (prefs : UserNotificationPreferences) (now dueDate : Int)
    (hstatus : task.status ≠ "completed")
    (hdis : task.priority ∉ prefs.disabledPriorities)
    (hpri : task.priority = "high")
    (hdue : task.due_date = some dueDate)
    (hover : dayStart dueDate < dayStart now)
    (_hmult : 0 < prefs.frequencyMultiplier) :
    (3 ≤ cnt →
      (calculateNotificationSchedule task profile cnt prefs now).notifications = []) ∧
    (cnt < 3 →
      (calculateNotificationSchedule task profile cnt prefs now).notifications =
        (if isInQuietHours (adjustToWorkHours
              (((now : ℚ) + (4 * 60 * 60 * 1000 : ℚ) / prefs.frequencyMultiplier).floor)
              profile (decide (task.category = some "work"))) prefs = true ∨
            adjustToWorkHours
              (((now : ℚ) + (4 * 60 * 60 * 1000 : ℚ) / prefs.frequencyMultiplier).floor)
              profile (decide (task.category = some "work")) ≤
              now + (prefs.minimumLeadTime : Int) * 60 * 1000
         then []
         else [⟨adjustToWorkHours
                  (((now : ℚ) + (4 * 60 * 60 * 1000 : ℚ) / prefs.frequencyMultiplier).floor)
                  profile (decide (task.category = some "work")),
                "Overdue high priority - reminder " ++ toString (cnt + 1) ++ " of 3",
                NotifType.overdue, "high"⟩]) ∧
      ∀ n ∈ (calculateNotificationSchedule task profile cnt prefs now).notifications,
        n.type = NotifType.overdue) := by
  have hcalc : (calculateNotificationSchedule task profile cnt prefs now).notifications =
      overdueNotifs task profile cnt prefs now (decide (task.category = some "work")) := by
    unfold calculateNotificationSchedule
    simp [hstatus, hdue, hpri, hover]
    rw [if_neg (hpri ▸ hdis)]
  refine ⟨fun h3 => ?_, fun h3 => ⟨?_, ?_⟩⟩
  · rw [hcalc]
    unfold overdueNotifs
    dsimp only
    rw [if_pos hpri, if_neg (by omega : ¬ cnt < 3)]
  · rw [hcalc]
    unfold overdueNotifs
    dsimp only
    rw [if_pos hpri, if_pos h3]
    unfold addNotification
    dsimp only
    split
    · next hq => rw [if_pos (Or.inl hq)]; rfl
    · next hq =>
      split
      · next hle => rw [if_pos (Or.inr hle)]; rfl
      · next hle =>
        rw [if_neg]
        · rfl
        · intro hc
          rcases hc with hc | hc
          · exact hq hc
          · exact hle hc
  · rw [hcalc]
    intro n hn
    exact (mem_overdueNotifs hn).2.2

set_option maxRecDepth 2000 in
/-- Claim C3 (counterexample): an overdue high-priority task with 0
existing reminders yields an empty schedule — not "exactly one" — when
the computed reminder time falls in (all-day) quiet hours, because the
overdue reminder still passes through the `addNotification` gate. -/
theorem C3_counterexample :
    (calculateNotificationSchedule c3Task c1Profile 0 c3Prefs c3Now).notifications = [] ∧
    (0 : Nat) < 3 ∧ dayStart 0 < dayStart c3Now := by
  refine ⟨?_, by decide, by decide⟩
  with_unfolding_all rfl

set_option maxRecDepth 2000 in
/-- Claim C3 (witness): the amended theorem applied at count 3 — the
fourth call returns an empty schedule. -/
theorem C3_witness :
    (calculateNotificationSchedule c3Task c1Profile 3 c5Prefs c3Now).notifications = [] :=
  (C3_overdue c3Task c1Profile 3 c5Prefs c3Now 0 (by decide) (by decide) rfl rfl
    (by decide) (by norm_num [c5Prefs])).1 (by decide)

/-- Claim C6 (amended): the lead-time buckets hold as specified except at
duration 0, which the falsy guard `if (!durationMinutes)` sends to the
15-minute default rather than the ≤30 bucket. -/
theorem C6_lead_time (d : Int) :
    (120 ≤ d → getLeadTimeForDuration (some d) = 30) ∧
    (60 ≤ d → d < 120 → getLeadTimeForDuration (some d) = 20) ∧
    (d ≤ 30 → d ≠ 0 → getLeadTimeForDuration (some d) = 10) ∧
    (30 < d → d < 60 → getLeadTimeForDuration (some d) = 15) ∧
    getLeadTimeForDuration none = 15 ∧
    getLeadTimeForDuration (some 0) = 15 := by
  refine ⟨fun h => ?_, fun h h2 => ?_, fun h h2 => ?_, fun h h2 => ?_, rfl, by decide⟩ <;>
    · simp only [getLeadTimeForDuration]
      repeat' split
      all_goals omega

/-- Claim C6 (counterexample): a zero duration is ≤ 30 but yields the
15-minute default, not 10. -/
theorem C6_counterexample :
    getLeadTimeForDuration (some 0) = 15 ∧ (0 : Int) ≤ 30 := by decide

/-- Claim C6 (witness): the bucket theorem applied at concrete
durations. -/
theorem C6_witness :
    getLeadTimeForDuration (some 130) = 30 ∧ getLeadTimeForDuration (some 90) = 20 ∧
    getLeadTimeForDuration (some 10) = 10 ∧ getLeadTimeForDuration (some 45) = 15 :=
  ⟨(C6_lead_time 130).1 (by decide),
   (C6_lead_time 90).2.1 (by decide) (by decide),
   (C6_lead_time 10).2.2.1 (by decide) (by decide),
   (C6_lead_time 45).2.2.2.1 (by decide) (by decide)⟩

/-- Claim C7 (amended): `adjustToWorkHours` leaves non-work tasks
unchanged; for work tasks (with in-range profile hours whose start hour
is not after the end hour) the returned HOUR is clamped into
`[startHour, endHour]` — the minute-of-day may still fall before the
work start (or after the work end) within the boundary hours, since only
hours are compared. -/
theorem C7_work_hours_clamp (t : Int) (profile : UserProfile) :
    adjustToWorkHours t profile false = t ∧
    (profile.work_hours_start.hour < 24 → profile.work_hours_end.hour < 24 →
     profile.work_hours_start.minute < 60 → profile.work_hours_end.minute < 60 →
     profile.work_hours_start.hour ≤ profile.work_hours_end.hour →
     (profile.work_hours_start.hour : Int) ≤ getHours (adjustToWorkHours t profile true) ∧
     getHours (adjustToWorkHours t profile true) ≤ (profile.work_hours_end.hour : Int)) := by
  constructor
  · rfl
  · intro h1 h2 h3 h4 h5
    unfold adjustToWorkHours
    dsimp only
    rw [if_neg (by decide : ¬ ((!true) = true))]
    split
    · next hc =>
      rw [getHours_setHM _ _ _ h1 h3]
      exact ⟨le_refl _, by exact_mod_cast h5⟩
    · next hc =>
      split
      · next hc2 =>
        rw [getHours_setHM _ _ _ h2 h4]
        exact ⟨by exact_mod_cast h5, le_refl _⟩
      · next hc2 => exact ⟨by omega, by omega⟩

/-- Claim C7 (counterexample): for a work task, 09:00 is returned
unchanged although its minute-of-day is before the 09:30 work start —
the clamp compares hours only. -/
theorem C7_counterexample :
    adjustToWorkHours 32400000 c7Profile true = 32400000 ∧
    timeValue 32400000 < hmValue c7Profile.work_hours_start := by decide

/-- Claim C7 (witness): the clamp theorem applied at 06:00 with the
concrete profile. -/
theorem C7_witness :
    adjustToWorkHours 21600000 c7Profile false = 21600000 ∧
    ((c7Profile.work_hours_start.hour : Int) ≤
        getHours (adjustToWorkHours 21600000 c7Profile true) ∧
      getHours (adjustToWorkHours 21600000 c7Profile true) ≤
        (c7Profile.work_hours_end.hour : Int)) :=
  ⟨(C7_work_hours_clamp 21600000 c7Profile).1,
   (C7_work_hours_clamp 21600000 c7Profile).2 (by decide) (by decide) (by decide)
     (by decide) (by decide)⟩

/-- Claim C8: when the quiet window start is after its end the test
wraps midnight (`t ≥ start OR t ≤ end` on minute-of-day values); with
the 22:00–07:00 window, 23:30 is quiet and 08:00 is not. -/
theorem C8_quiet_hours_wrap (t : Int) (prefs : UserNotificationPreferences) :
    (hmValue prefs.quietHoursEnd < hmValue prefs.quietHoursStart →
      (isInQuietHours t prefs = true ↔
        hmValue prefs.quietHoursStart ≤ timeValue t ∨
        timeValue t ≤ hmValue prefs.quietHoursEnd)) ∧
    (prefs.quietHoursStart = ⟨22, 0⟩ → prefs.quietHoursEnd = ⟨7, 0⟩ →
      (timeValue t = 23 * 60 + 30 → isInQuietHours t prefs = true) ∧
      (timeValue t = 8 * 60 → isInQuietHours t prefs = false)) := by
  constructor
  · intro hw
    unfold isInQuietHours
    dsimp only
    rw [if_pos hw]
    simp [decide_eq_true_iff]
  · intro hs he
    refine ⟨fun htv => ?_, fun htv => ?_⟩ <;>
      simp [isInQuietHours, hmValue, hs, he, htv]

set_option maxRecDepth 2000 in
/-- Claim C8 (witness): the wrap theorem applied at 23:30 and 08:00 of
day 0 with the default 22:00–07:00 window. -/
theorem C8_witness :
    isInQuietHours 84600000 c5Prefs = true ∧ isInQuietHours 28800000 c5Prefs = false :=
  ⟨((C8_quiet_hours_wrap 84600000 c5Prefs).2 rfl rfl).1 (by decide),
   ((C8_quiet_hours_wrap 28800000 c5Prefs).2 rfl rfl).2 (by decide)⟩

/-- Claim C9 (amended): deltas of at least one minute render as
"Due in N {unit}" picking the largest nonzero unit (days over hours over
minutes); nonnegative deltas under one minute — not only exactly zero —
render as "Due now"; strictly negative deltas render as
"Due N {unit} ago" with the same precedence over the rounded-up overdue
minute count. -/
theorem C9_format_time (target fromDate : Int) :
    (86400000 ≤ target - fromDate →
      formatTimeRemaining target fromDate =
        "Due in " ++ toString ((target - fromDate) / 86400000) ++ " day" ++
          plural ((target - fromDate) / 86400000)) ∧
    (3600000 ≤ target - fromDate → target - fromDate < 86400000 →
      formatTimeRemaining target fromDate =
        "Due in " ++ toString ((target - fromDate) / 3600000) ++ " hour" ++
          plural ((target - fromDate) / 3600000)) ∧
    (60000 ≤ target - fromDate → target - fromDate < 3600000 →
      formatTimeRemaining target fromDate =
        "Due in " ++ toString ((target - fromDate) / 60000) ++ " minute" ++
          plural ((target - fromDate) / 60000)) ∧
    (0 ≤ target - fromDate → target - fromDate < 60000 →
      formatTimeRemaining target fromDate = "Due now") ∧
    (target - fromDate < 0 →
      (1440 ≤ -((target - fromDate) / 60000) →
        formatTimeRemaining target fromDate =
          "Due " ++ toString (-((target - fromDate) / 60000) / 60 / 24) ++ " day" ++
            plural (-((target - fromDate) / 60000) / 60 / 24) ++ " ago") ∧
      (60 ≤ -((target - fromDate) / 60000) → -((target - fromDate) / 60000) < 1440 →
        formatTimeRemaining target fromDate =
          "Due " ++ toString (-((target - fromDate) / 60000) / 60) ++ " hour" ++
            plural (-((target - fromDate) / 60000) / 60) ++ " ago") ∧
      (-((target - fromDate) / 60000) < 60 →
        formatTimeRemaining target fromDate =
          "Due " ++ toString (-((target - fromDate) / 60000)) ++ " minute" ++
            plural (-((target - fromDate) / 60000)) ++ " ago")) := by
  refine ⟨fun h1 => ?_, fun h1 h2 => ?_, fun h1 h2 => ?_, fun h1 h2 => ?_,
    fun h1 => ⟨fun h2 => ?_, fun h2 h3 => ?_, fun h2 => ?_⟩⟩ <;>
    (unfold formatTimeRemaining; dsimp only)
  · rw [if_neg (by omega), if_pos (by omega),
      show (target - fromDate) / 60000 / 60 / 24 = (target - fromDate) / 86400000 from by omega]
  · rw [if_neg (by omega), if_neg (by omega), if_pos (by omega),
      show (target - fromDate) / 60000 / 60 = (target - fromDate) / 3600000 from by omega]
  · rw [if_neg (by omega), if_neg (by omega), if_neg (by omega), if_pos (by omega)]
  · rw [if_neg (by omega), if_neg (by omega), if_neg (by omega), if_neg (by omega)]
  · rw [if_pos (by omega), abs_of_neg (by omega : (target - fromDate) / 60000 < 0),
      if_pos (by omega)]
  · rw [if_pos (by omega), abs_of_neg (by omega : (target - fromDate) / 60000 < 0),
      if_neg (by omega), if_pos (by omega)]
  · rw [if_pos (by omega), abs_of_neg (by omega : (target - fromDate) / 60000 < 0),
      if_neg (by omega), if_neg (by omega)]

/-- Claim C9 (counterexample): a strictly positive 30-second delta is
rendered "Due now", not "Due in N {unit}". -/
theorem C9_counterexample :
    formatTimeRemaining 30000 0 = "Due now" ∧ (0 : Int) ≤ 30000 - 0 ∧ (30000 : Int) - 0 ≠ 0 := by
  decide

/-- Claim C9 (witness): the formatter theorem applied at a 3-day
delta. -/
theorem C9_witness :
    formatTimeRemaining 259200000 0 =
      "Due in " ++ toString ((259200000 - 0 : Int) / 86400000) ++ " day" ++
        plural ((259200000 - 0 : Int) / 86400000) :=
  (C9_format_time 259200000 0).1 (by decide)

end NotificationEngine
